import Mathlib

/-!
Shallow embedding of the 2FA gateway of the `vpn_project` repository:
the data model (`authserver/models.py`), the REST two-step login views
(`authserver/views.py`), the SMS/TOTP service (`authserver/services.py`)
and the OpenVPN management-interface bridge
(`authserver/management_interface.py`).

Times are modelled as natural numbers (minutes); `timezone.now()` becomes
an explicit `now : Nat` argument.  Database rows carry an explicit primary
key `id : Nat`; a Django `save()` writes the row back by primary key.
The injected capabilities `django.contrib.auth.authenticate` and
`pyotp.TOTP.verify` are abstract function parameters.
-/

namespace VpnAuth

/-- Embeds `CustomUser` from `authserver/models.py`: `two_fa_method` is the
stored string (one of "NONE", "SMS", "GOOGLE_AUTH", but arbitrary strings
are possible as in the CharField), `phone_number` is nullable. -/
structure CustomUser where
  id : Nat
  username : String
  two_fa_method : String
  two_fa_secret : Option String
  phone_number : Option String
deriving DecidableEq, Repr

/-- Embeds `TwoFactorCode` from `authserver/models.py` (lines 62-98):
a stored SMS verification code row.  `user` is the foreign key (user id). -/
structure TwoFactorCode where
  id : Nat
  user : Nat
  code : String
  created_at : Nat
  expires_at : Nat
  is_used : Bool
deriving DecidableEq, Repr

/-- Embeds `TwoFactorCode.is_valid` (models.py lines 93-98):
`not self.is_used and self.expires_at > timezone.now()`. -/
def TwoFactorCode.is_valid (c : TwoFactorCode) (now : Nat) : Bool :=
  !c.is_used && decide (c.expires_at > now)

/-- Embeds `TemporaryToken` from `authserver/models.py` (lines 100-137).
The foreign key `user` is embedded as the full row (Django dereferences
`temp_token_obj.user`); referential integrity makes this faithful. -/
structure TemporaryToken where
  id : Nat
  user : CustomUser
  token : String
  created_at : Nat
  expires_at : Nat
  is_used : Bool
deriving DecidableEq, Repr

/-- Embeds `TemporaryToken.is_valid` (models.py lines 132-137):
`not self.is_used and self.expires_at > timezone.now()`. -/
def TemporaryToken.is_valid (t : TemporaryToken) (now : Nat) : Bool :=
  !t.is_used && decide (t.expires_at > now)

/-- Database state threaded through the views: the `TwoFactorCode` and
`TemporaryToken` tables.  Rows are never deleted by the embedded code. -/
structure DB where
  codes : List TwoFactorCode
  tokens : List TemporaryToken
deriving DecidableEq, Repr

/-- Embeds `latest_code.save()` / `code_obj.save()`: write back the row with
primary key `cid` with `is_used = True`. -/
def markCodeUsed (db : DB) (cid : Nat) : DB :=
  { db with codes := db.codes.map fun c =>
      if c.id == cid then { c with is_used := true } else c }

/-- Embeds `temp_token_obj.save()`: write back the token row with primary key
`tid` with `is_used = True`. -/
def markTokenUsed (db : DB) (tid : Nat) : DB :=
  { db with tokens := db.tokens.map fun t =>
      if t.id == tid then { t with is_used := true } else t }

/-- Embeds the Django queryset terminator `.latest('created_at')` on a list of
code rows: the row with the greatest `created_at` (earliest such row on a
tie), `none` when the queryset is empty (`DoesNotExist`). -/
def latestCode : List TwoFactorCode → Option TwoFactorCode
  | [] => none
  | c :: cs =>
    match latestCode cs with
    | none => some c
    | some b => if b.created_at > c.created_at then some b else some c

/-- Injected capability: `django.contrib.auth.authenticate(username, password)`
returning the user on success and `None` on failure. -/
def Authenticate : Type := String → String → Option CustomUser

/-- Injected capability: `TwoFactorService.verify_totp(secret, code)`
(services.py lines 23-29, via pyotp, time implicit). -/
def VerifyTotp : Type := Option String → String → Bool

/-- Embeds the inline SMS verification of
`OpenVPNManagementInterface._process_auth_request`
(management_interface.py lines 252-266): take the single most recently
created unused code of the user, accept iff it is valid and its value equals
the supplied code, marking it used on acceptance. -/
def smsVerifySingleShot (db : DB) (user : CustomUser) (code_part : String)
    (now : Nat) : Bool × DB :=
  match latestCode (db.codes.filter fun c => c.user == user.id && !c.is_used) with
  | none => (false, db)
  | some latest_code =>
    if latest_code.is_valid now && latest_code.code == code_part then
      (true, markCodeUsed db latest_code.id)
    else
      (false, db)

/-- Embeds the inline SMS verification of `LoginStep2View.post`
(views.py lines 146-160): take the most recently created unused code of the
user whose value equals the supplied code, accept iff it is valid, marking it
used on acceptance. -/
def smsVerifyStepTwo (db : DB) (user : CustomUser) (verification_code : String)
    (now : Nat) : Bool × DB :=
  match latestCode (db.codes.filter fun c =>
      c.user == user.id && c.code == verification_code && !c.is_used) with
  | none => (false, db)
  | some code_obj =>
    if code_obj.is_valid now then
      (true, markCodeUsed db code_obj.id)
    else
      (false, db)

/-- Splits a list at the first occurrence of `sep`, returning the parts before
and after it; embeds Python `s.split(sep, 1)` when `sep ∈ s`. -/
def splitFirst (sep : Char) : List Char → List Char × List Char
  | [] => ([], [])
  | ch :: rest =>
    if ch = sep then ([], rest)
    else
      let p := splitFirst sep rest
      (ch :: p.1, p.2)

/-- Part of the password field before the first ';' when one is present,
otherwise the whole field: the string checked against the primary credential
in `_process_auth_request` on both branches. -/
def passwordPart (password : String) : String :=
  if password.toList.contains ';' then ⟨(splitFirst ';' password.toList).1⟩
  else password

/-- Part of the password field after the first ';' (the supplied 2FA code). -/
def codePart (password : String) : String :=
  ⟨(splitFirst ';' password.toList).2⟩

/-- Outcome of the single-shot (socket) decision: `_allow_auth` or
`_deny_auth`. -/
inductive SSDecision where
  | allow
  | deny
deriving DecidableEq, Repr

/-- Embeds `OpenVPNManagementInterface._process_auth_request`
(management_interface.py lines 216-298) as a decision function: splits the
password field on the first ';', authenticates, and dispatches on the user's
`two_fa_method`.  Returns the decision and the database after any code
consumption. -/
def decideSingleShot (auth : Authenticate) (vt : VerifyTotp) (db : DB)
    (username password : String) (now : Nat) : SSDecision × DB :=
  if password.toList.contains ';' then
    let password_part := passwordPart password
    let code_part := codePart password
    match auth username password_part with
    | none => (.deny, db)
    | some user =>
      if user.two_fa_method == "NONE" then (.allow, db)
      else
        let (verified, db1) :=
          if user.two_fa_method == "SMS" then
            smsVerifySingleShot db user code_part now
          else if user.two_fa_method == "GOOGLE_AUTH" then
            (vt user.two_fa_secret code_part, db)
          else
            (false, db)
        if verified then (.allow, db1) else (.deny, db1)
  else
    match auth username password with
    | none => (.deny, db)
    | some user =>
      if user.two_fa_method != "NONE" then (.deny, db) else (.allow, db)

/-- Observable outcome of a `LoginStep2View.post` request: HTTP status class
together with the error message the view puts in the body. -/
inductive Step2Result where
  | badRequest (msg : String)
  | unauthorized (msg : String)
  | success (userId : Nat)
deriving DecidableEq, Repr

/-- HTTP status code of a step-2 outcome as returned by the view. -/
def Step2Result.status : Step2Result → Nat
  | .badRequest _ => 400
  | .unauthorized _ => 401
  | .success _ => 200

/-- True exactly when a step-2 outcome issued a permanent access token. -/
def Step2Result.isSuccess : Step2Result → Bool
  | .success _ => true
  | _ => false

/-- Embeds the method dispatch block headed by the comment
`# Verify 2FA code` in `LoginStep2View.post` (views.py lines 143-164):
the resulting `verified` flag and the database after any code consumption. -/
def verifySecondFactorStepTwo (vt : VerifyTotp) (db : DB) (user : CustomUser)
    (verification_code : String) (now : Nat) : Bool × DB :=
  if user.two_fa_method == "SMS" then
    smsVerifyStepTwo db user verification_code now
  else if user.two_fa_method == "GOOGLE_AUTH" then
    (vt user.two_fa_secret verification_code, db)
  else
    (false, db)

/-- Embeds `LoginStep2View.post` (views.py lines 112-182).  Missing fields are
modelled as the empty string (Python truthiness of `request.data.get`).
Token lookup embeds `TemporaryToken.objects.get(token=..., is_used=False)`,
which raises `DoesNotExist` when no such row exists (`token` is a unique
column). -/
def decideStepTwo (vt : VerifyTotp) (db : DB)
    (temporary_token verification_code : String) (now : Nat) :
    Step2Result × DB :=
  if temporary_token == "" || verification_code == "" then
    (.badRequest "Please provide both temporary_token and verification code", db)
  else
    match db.tokens.find? (fun t => t.token == temporary_token && !t.is_used) with
    | none => (.unauthorized "Invalid or expired temporary token", db)
    | some temp_token_obj =>
      if !temp_token_obj.is_valid now then
        (.unauthorized "Temporary token has expired. Please login again.", db)
      else
        let user := temp_token_obj.user
        let p := verifySecondFactorStepTwo vt db user verification_code now
        if p.1 then
          (.success user.id, markTokenUsed p.2 temp_token_obj.id)
        else
          (.unauthorized "Invalid verification code", p.2)

/-- Python truthiness of the nullable `phone_number` field: `None` and the
empty string are falsy. -/
def phoneTruthy : Option String → Bool
  | none => false
  | some s => s != ""

/-- Embeds `TwoFactorCode.generate_code` (models.py lines 75-91) with the
random 6-digit value supplied as `newCode`; expiry is 10 minutes. -/
def generate_code (db : DB) (user : CustomUser) (newCode : String) (now : Nat) :
    TwoFactorCode × DB :=
  let c : TwoFactorCode :=
    { id := db.codes.length + db.tokens.length, user := user.id, code := newCode,
      created_at := now, expires_at := now + 10, is_used := false }
  (c, { db with codes := db.codes ++ [c] })

/-- Embeds `TwoFactorService.send_sms_code` (services.py lines 97-129):
raises `ValueError` when the user has no (truthy) phone number, otherwise
generates and stores a fresh code.  The `Except` error is the raised
exception message. -/
def send_sms_code (db : DB) (user : CustomUser) (newCode : String) (now : Nat) :
    Except String DB :=
  if !phoneTruthy user.phone_number then
    .error "User has no phone number"
  else
    .ok (generate_code db user newCode now).2

/-- Embeds `TemporaryToken.generate_token` (models.py lines 114-130) with the
uuid4 value supplied as `newToken`; expiry is 15 minutes. -/
def generate_token (db : DB) (user : CustomUser) (newToken : String) (now : Nat) :
    TemporaryToken × DB :=
  let t : TemporaryToken :=
    { id := db.codes.length + db.tokens.length, user := user, token := newToken,
      created_at := now, expires_at := now + 15, is_used := false }
  (t, { db with tokens := db.tokens ++ [t] })

/-- Observable outcome of a `LoginStep1View.post` request.  `valueError` is an
uncaught exception propagating out of the view (no response produced). -/
inductive Step1Result where
  | badRequest (msg : String)
  | unauthorized (msg : String)
  | tokenIssued (userId : Nat)
  | stepTwoRequired (temporary_token : String) (method : String) (userId : Nat)
  | valueError (msg : String)
deriving DecidableEq, Repr

/-- Embeds `LoginStep1View.post` (views.py lines 53-110): authenticate; if the
method is NONE return a permanent token; otherwise persist a fresh
`TemporaryToken` first, then for SMS call `send_sms_code` (which may raise),
then respond with the temporary token and method. -/
def loginStep1 (auth : Authenticate) (db : DB) (username password : String)
    (newToken newCode : String) (now : Nat) : Step1Result × DB :=
  if username == "" || password == "" then
    (.badRequest "Please provide both username and password", db)
  else
    match auth username password with
    | none => (.unauthorized "Invalid credentials", db)
    | some user =>
      if user.two_fa_method == "NONE" then
        (.tokenIssued user.id, db)
      else
        let (temp_token, db1) := generate_token db user newToken now
        if user.two_fa_method == "SMS" then
          match send_sms_code db1 user newCode now with
          | .error msg => (.valueError msg, db1)
          | .ok db2 =>
            (.stepTwoRequired temp_token.token user.two_fa_method user.id, db2)
        else
          (.stepTwoRequired temp_token.token user.two_fa_method user.id, db1)

/-- Strips the literal `pat` from the head of `s`, returning the remainder;
embeds an anchored `re.match` against a literal pattern piece. -/
def dropLit : List Char → List Char → Option (List Char)
  | [], rest => some rest
  | _, [] => none
  | p :: ps, ch :: rest => if ch = p then dropLit ps rest else none

/-- Longest leading digit run and the remainder; embeds a greedy `\d+` piece
followed by a non-digit (greedy matching is exact here because the regex
continues with a literal that is not a digit). -/
def takeDigits : List Char → List Char × List Char
  | [] => ([], [])
  | ch :: rest =>
    if ch.isDigit then
      let p := takeDigits rest
      (ch :: p.1, p.2)
    else
      ([], ch :: rest)

/-- Embeds `auth_request_pattern.match(line)` for the regex
`>CLIENT:CONNECT,(\d+),(\d+)` (management_interface.py line 37): connection
id and key id as digit strings; the match is anchored at the start but not at
the end of the line. -/
def matchConnect (line : List Char) : Option (List Char × List Char) :=
  match dropLit ">CLIENT:CONNECT,".toList line with
  | none => none
  | some rest =>
    let p1 := takeDigits rest
    if p1.1.isEmpty then none
    else
      match p1.2 with
      | ',' :: rest2 =>
        let p2 := takeDigits rest2
        if p2.1.isEmpty then none else some (p1.1, p2.1)
      | _ => none

/-- Embeds `username_pattern.match(line)` for `>CLIENT:ENV,username=(.+)`
(management_interface.py line 38): the capture is the whole remainder of the
line and must be nonempty. -/
def matchUsername (line : List Char) : Option (List Char) :=
  match dropLit ">CLIENT:ENV,username=".toList line with
  | none => none
  | some rest => if rest.isEmpty then none else some rest

/-- Embeds `password_pattern.match(line)` for `>CLIENT:ENV,password=(.+)`
(management_interface.py line 39). -/
def matchPassword (line : List Char) : Option (List Char) :=
  match dropLit ">CLIENT:ENV,password=".toList line with
  | none => none
  | some rest => if rest.isEmpty then none else some rest

/-- Embeds `end_pattern.match(line)` for `>CLIENT:ENV,END`
(management_interface.py line 40): an anchored, not end-anchored, match. -/
def matchEnd (line : List Char) : Bool :=
  (dropLit ">CLIENT:ENV,END".toList line).isSome

/-- Mutable local state of `OpenVPNManagementInterface._run`
(management_interface.py lines 143-147): the five variables
`current_cid`, `current_kid`, `username`, `password`, `collecting_env`. -/
structure RunState where
  current_cid : Option (List Char)
  current_kid : Option (List Char)
  username : Option (List Char)
  password : Option (List Char)
  collecting_env : Bool
deriving DecidableEq, Repr

/-- Initial state of the service loop: all fields `None`, not collecting. -/
def initRunState : RunState :=
  { current_cid := none, current_kid := none, username := none,
    password := none, collecting_env := false }

/-- Commands the loop can emit on the management socket: `_allow_auth` and
`_deny_auth`.  The id fields are optional because `_deny_auth` is invoked
with the raw (possibly `None`) state variables on an incomplete request. -/
inductive Reply where
  | allow (cid kid : Option (List Char))
  | deny (cid kid : Option (List Char))
deriving DecidableEq, Repr

/-- Abstract `_process_auth_request` as seen by the service loop: from the
collected username, password, connection id and key id, the replies it emits
on the socket. -/
def AuthEngine : Type :=
  List Char → List Char → List Char → List Char → List Reply

/-- Python truthiness of an optional string state variable (`None` and the
empty string are falsy): the test guarding `_process_auth_request`. -/
def truthy : Option (List Char) → Bool
  | none => false
  | some s => !s.isEmpty

/-- Embeds the per-line body of the `for line in data.splitlines()` loop in
`OpenVPNManagementInterface._run` (management_interface.py lines 161-209):
a CONNECT match resets the request state unconditionally; while collecting,
username/password/END lines are matched in order; anything else is ignored.
Returns the new state and the replies emitted while processing the line. -/
def processLine (pa : AuthEngine) (st : RunState) (line : List Char) :
    RunState × List Reply :=
  match matchConnect line with
  | some ids =>
    ({ current_cid := some ids.1, current_kid := some ids.2, username := none,
       password := none, collecting_env := true }, [])
  | none =>
    if st.collecting_env then
      match matchUsername line with
      | some u => ({ st with username := some u }, [])
      | none =>
        match matchPassword line with
        | some p => ({ st with password := some p }, [])
        | none =>
          if matchEnd line then
            let replies :=
              if truthy st.username && truthy st.password &&
                  truthy st.current_cid && truthy st.current_kid then
                pa (st.username.getD []) (st.password.getD [])
                  (st.current_cid.getD []) (st.current_kid.getD [])
              else
                [Reply.deny st.current_cid st.current_kid]
            (initRunState, replies)
          else
            (st, [])
    else
      (st, [])

/-- Embeds Python `str.splitlines()` for data whose line breaks are `\n`,
`\r\n` or `\r`: split at each break, no trailing empty line.  `acc` holds the
current line, reversed. -/
def splitlinesGo : List Char → List Char → List (List Char)
  | [], acc => if acc.isEmpty then [] else [acc.reverse]
  | '\r' :: '\n' :: rest, acc => acc.reverse :: splitlinesGo rest []
  | '\r' :: rest, acc => acc.reverse :: splitlinesGo rest []
  | '\n' :: rest, acc => acc.reverse :: splitlinesGo rest []
  | ch :: rest, acc => splitlinesGo rest (ch :: acc)

/-- Python `data.splitlines()` on the decoded bytes of one `recv`. -/
def splitlines (data : List Char) : List (List Char) :=
  splitlinesGo data []

/-- Processes the list of whole lines obtained from one received chunk,
accumulating emitted replies: the `for line in data.splitlines()` loop. -/
def processLines (pa : AuthEngine) (st : RunState) (lines : List (List Char)) :
    RunState × List Reply :=
  lines.foldl
    (fun acc line =>
      let r := processLine pa acc.1 line
      (r.1, acc.2 ++ r.2))
    (st, [])

/-- Embeds one iteration of the service loop on a received chunk `data`:
`data.splitlines()` is applied to the chunk alone — the loop keeps no buffer
of an unterminated trailing line between reads. -/
def processData (pa : AuthEngine) (st : RunState) (data : List Char) :
    RunState × List Reply :=
  processLines pa st (splitlines data)

/-- Embeds the service loop over a sequence of received chunks: each chunk is
split into lines and processed independently, as in `_run`
(management_interface.py lines 149-209). -/
def processChunks (pa : AuthEngine) (st : RunState) (chunks : List (List Char)) :
    RunState × List Reply :=
  chunks.foldl
    (fun acc data =>
      let r := processData pa acc.1 data
      (r.1, acc.2 ++ r.2))
    (st, [])

/-! Shared lemmas about the queryset helpers. -/

/-- An empty `latest` result only arises from an empty queryset. -/
theorem latestCode_eq_none {l : List TwoFactorCode} (h : latestCode l = none) :
    l = [] := by
  cases l with
  | nil => rfl
  | cons a as =>
    rw [latestCode] at h
    cases hl : latestCode as with
    | none => rw [hl] at h; simp at h
    | some b =>
      rw [hl] at h
      by_cases hgt : b.created_at > a.created_at <;> simp [hgt] at h

/-- The row returned by `latest` belongs to the queryset. -/
theorem latestCode_mem {l : List TwoFactorCode} {m : TwoFactorCode}
    (h : latestCode l = some m) : m ∈ l := by
  induction l generalizing m with
  | nil => simp [latestCode] at h
  | cons a as ih =>
    rw [latestCode] at h
    cases hl : latestCode as with
    | none =>
      rw [hl] at h
      simp at h
      subst h
      exact List.mem_cons_self a as
    | some b =>
      rw [hl] at h
      by_cases hgt : b.created_at > a.created_at
      · simp [hgt] at h
        subst h
        exact List.mem_cons_of_mem a (ih hl)
      · simp [hgt] at h
        subst h
        exact List.mem_cons_self a as

/-- The row returned by `latest` has maximal `created_at` in the queryset. -/
theorem latestCode_le {l : List TwoFactorCode} {m : TwoFactorCode}
    (h : latestCode l = some m) :
    ∀ x ∈ l, x.created_at ≤ m.created_at := by
  induction l generalizing m with
  | nil => simp [latestCode] at h
  | cons a as ih =>
    rw [latestCode] at h
    intro x hx
    cases hl : latestCode as with
    | none =>
      have has : as = [] := latestCode_eq_none hl
      subst has
      rw [hl] at h
      simp at h
      subst h
      rcases List.mem_cons.mp hx with rfl | hx'
      · exact Nat.le_refl _
      · cases hx'
    | some b =>
      rw [hl] at h
      have hble := ih hl
      by_cases hgt : b.created_at > a.created_at
      · simp [hgt] at h
        subst h
        rcases List.mem_cons.mp hx with rfl | hx'
        · exact Nat.le_of_lt hgt
        · exact hble x hx'
      · simp [hgt] at h
        subst h
        rcases List.mem_cons.mp hx with rfl | hx'
        · exact Nat.le_refl _
        · exact Nat.le_trans (hble x hx') (Nat.le_of_not_lt hgt)

/-- Restricting a queryset by an extra condition that the `latest` row already
satisfies does not change the `latest` row. -/
theorem latestCode_filter (r : TwoFactorCode → Bool) {l : List TwoFactorCode}
    {m : TwoFactorCode} (h : latestCode l = some m) (hr : r m = true) :
    latestCode (l.filter r) = some m := by
  induction l generalizing m with
  | nil => simp [latestCode] at h
  | cons a as ih =>
    rw [latestCode] at h
    cases hl : latestCode as with
    | none =>
      have has : as = [] := latestCode_eq_none hl
      subst has
      rw [hl] at h
      simp at h
      subst h
      simp [List.filter_cons, hr, latestCode]
    | some b =>
      rw [hl] at h
      by_cases hgt : b.created_at > a.created_at
      · simp [hgt] at h
        subst h
        have hfs := ih hl hr
        by_cases hra : r a = true
        · simp [List.filter_cons, hra, latestCode, hfs, hgt]
        · simp [List.filter_cons, hra, hfs]
      · simp [hgt] at h
        subst h
        have hra : r a = true := hr
        cases hfl : latestCode (as.filter r) with
        | none => simp [List.filter_cons, hra, latestCode, hfl]
        | some b' =>
          have hb'as : b' ∈ as := List.mem_of_mem_filter (latestCode_mem hfl)
          have h1 : b'.created_at ≤ b.created_at := latestCode_le hl b' hb'as
          have h2 : ¬ b'.created_at > a.created_at := by
            have := Nat.le_of_not_lt hgt
            omega
          simp [List.filter_cons, hra, latestCode, hfl, h2]

/-- Django `get(token=..., is_used=False)` raises `DoesNotExist` when every
row carrying the token value is already used. -/
theorem find?_token_none (l : List TemporaryToken) (tok : String)
    (h : ∀ x ∈ l, x.token = tok → x.is_used = true) :
    l.find? (fun x => x.token == tok && !x.is_used) = none := by
  apply List.find?_eq_none.mpr
  intro x hx hp
  rw [Bool.and_eq_true, beq_iff_eq, Bool.not_eq_true'] at hp
  exact absurd (h x hx hp.1) (by simp [hp.2])

/-- Django `get(token=..., is_used=False)` returns the unique unused row
carrying the token value (the `token` column is unique). -/
theorem find?_token_some {l : List TemporaryToken} {t : TemporaryToken}
    (hmem : t ∈ l) (hused : t.is_used = false)
    (huniq : ∀ x ∈ l, x.token = t.token → x = t) :
    l.find? (fun x => x.token == t.token && !x.is_used) = some t := by
  induction l with
  | nil => cases hmem
  | cons a as ih =>
    by_cases ha : (a.token == t.token && !a.is_used) = true
    · have h1 : a.token = t.token := by
        have h' := ha
        simp only [Bool.and_eq_true, beq_iff_eq] at h'
        exact h'.1
      have h2 : a = t := huniq a (List.mem_cons_self a as) h1
      simp [List.find?_cons, ha, h2, hused]
    · simp only [List.find?_cons, ha, if_false, Bool.false_eq_true, if_neg,
        not_false_iff]
      rcases List.mem_cons.mp hmem with rfl | hm
      · exact absurd (by simp [hused]) ha
      · exact ih hm fun x hx hxt => huniq x (List.mem_cons_of_mem _ hx) hxt

/-- A failed SMS verification in the step-2 view leaves the database
untouched (no save occurs on any failure path). -/
theorem smsVerifyStepTwo_false_db (db : DB) (u : CustomUser) (v : String)
    (now : Nat) :
    (smsVerifyStepTwo db u v now).1 = false →
    (smsVerifyStepTwo db u v now).2 = db := by
  unfold smsVerifyStepTwo
  cases hl : latestCode (db.codes.filter fun c =>
      c.user == u.id && c.code == v && !c.is_used) with
  | none => intro _; rfl
  | some co =>
    by_cases hv : co.is_valid now = true
    · simp [hv]
    · simp [hv]

/-- A failed second-factor verification in the step-2 view leaves the
database untouched (no save occurs on any failure path). -/
theorem verifySecondFactorStepTwo_false_db (vt : VerifyTotp) (db : DB)
    (user : CustomUser) (v : String) (now : Nat) :
    (verifySecondFactorStepTwo vt db user v now).1 = false →
    (verifySecondFactorStepTwo vt db user v now).2 = db := by
  unfold verifySecondFactorStepTwo
  by_cases h1 : (user.two_fa_method == "SMS") = true
  · simpa [h1] using smsVerifyStepTwo_false_db db user v now
  · by_cases h2 : (user.two_fa_method == "GOOGLE_AUTH") = true
    · simp [h1, h2]
    · simp [h1, h2]

/-! Concrete sample objects used by witnesses and counterexamples. -/

/-- TOTP verifier that rejects everything (a fixed concrete capability). -/
def vtFalse : VerifyTotp := fun _ _ => false

/-- Auth engine that emits no replies (a fixed concrete capability). -/
def paNull : AuthEngine := fun _ _ _ _ => []

/-- Sample account with second-factor method SMS. -/
def sampleSmsUser : CustomUser :=
  { id := 0, username := "alice", two_fa_method := "SMS",
    two_fa_secret := none, phone_number := some "123456789" }

/-- Concrete identity store knowing only `alice` with password `pw`. -/
def authSample : Authenticate := fun u p =>
  if u == "alice" && p == "pw" then some sampleSmsUser else none

/-- Older unused, unexpired stored SMS code of the sample account. -/
def codeOld : TwoFactorCode :=
  { id := 1, user := 0, code := "111111", created_at := 1, expires_at := 100,
    is_used := false }

/-- Newer unused, unexpired stored SMS code of the sample account. -/
def codeNew : TwoFactorCode :=
  { id := 2, user := 0, code := "222222", created_at := 2, expires_at := 100,
    is_used := false }

/-- Database holding the two unused codes of the sample account. -/
def dbTwoCodes : DB := { codes := [codeOld, codeNew], tokens := [] }

/-- Expired but unused temporary token of the sample account. -/
def tokExpired : TemporaryToken :=
  { id := 10, user := sampleSmsUser, token := "tokA", created_at := 0,
    expires_at := 5, is_used := false }

/-- Already used, unexpired temporary token of the sample account. -/
def tokUsed : TemporaryToken :=
  { id := 11, user := sampleSmsUser, token := "tokB", created_at := 0,
    expires_at := 100, is_used := true }

/-- Unused, unexpired temporary token of the sample account. -/
def tokLive : TemporaryToken :=
  { id := 12, user := sampleSmsUser, token := "tokC", created_at := 0,
    expires_at := 100, is_used := false }

/-- Database holding both failing temporary tokens. -/
def dbTwoTokens : DB := { codes := [], tokens := [tokExpired, tokUsed] }

/-- Database holding a live token together with the two stored codes. -/
def dbLive : DB := { codes := [codeOld, codeNew], tokens := [tokLive] }

/-- C3: for every account whose second-factor method is not NONE (SMS or
TOTP), `decideSingleShot` denies whenever the password field contains no ';'
delimiter; and whenever the primary username/password verification fails (on
the part of the password before the first ';', or the whole password when no
';' is present), `decideSingleShot` denies with the database unchanged —
no second-factor check is performed even when a valid code is supplied. -/
theorem c3_second_factor_required_and_primary_short_circuit :
    (∀ (auth : Authenticate) (vt : VerifyTotp) (db : DB)
        (username password : String) (now : Nat) (user : CustomUser),
        password.toList.contains ';' = false →
        auth username password = some user →
        user.two_fa_method ≠ "NONE" →
        decideSingleShot auth vt db username password now = (.deny, db)) ∧
    (∀ (auth : Authenticate) (vt : VerifyTotp) (db : DB)
        (username password : String) (now : Nat),
        auth username (passwordPart password) = none →
        decideSingleShot auth vt db username password now = (.deny, db)) := by
  constructor
  · intro auth vt db username password now user hsemi hauth hnone
    have hne : (user.two_fa_method != "NONE") = true := bne_iff_ne.mpr hnone
    have hnotmem : ';' ∉ password.data := by simpa using hsemi
    simp [decideSingleShot, hnotmem, hauth, hne]
  · intro auth vt db username password now hauth
    by_cases hsemi : password.toList.contains ';' = true
    · have hmem : ';' ∈ password.data := by simpa using hsemi
      simp [decideSingleShot, hmem, hauth]
    · have hnotmem : ';' ∉ password.data := by simpa using hsemi
      have hpw : passwordPart password = password := by
        simp [passwordPart, hnotmem]
      rw [hpw] at hauth
      simp [decideSingleShot, hnotmem, hauth]

/-- C3 witness: the sample SMS account is denied on a delimiterless password,
and a wrong primary credential is denied with the database untouched. -/
theorem c3_witness :
    decideSingleShot authSample vtFalse dbTwoCodes "alice" "pw" 10 =
      (.deny, dbTwoCodes) ∧
    decideSingleShot authSample vtFalse dbTwoCodes "alice" "bad;222222" 10 =
      (.deny, dbTwoCodes) :=
  ⟨c3_second_factor_required_and_primary_short_circuit.1 authSample vtFalse
      dbTwoCodes "alice" "pw" 10 sampleSmsUser (by decide) (by decide)
      (by decide),
   c3_second_factor_required_and_primary_short_circuit.2 authSample vtFalse
      dbTwoCodes "alice" "bad;222222" 10 (by decide)⟩

/-- C5: once a `TemporaryToken` is used, every `decideStepTwo` call
presenting that token is denied (never a success) and leaves the database
unchanged, no matter what code is supplied and regardless of expiry. -/
theorem c5_used_token_always_denied (vt : VerifyTotp) (db : DB)
    (tok code : String) (now : Nat) (t : TemporaryToken)
    (hmem : t ∈ db.tokens) (htok : t.token = tok) (hused : t.is_used = true)
    (huniq : ∀ x ∈ db.tokens, x.token = tok → x = t) :
    (decideStepTwo vt db tok code now).1.isSuccess = false ∧
    (decideStepTwo vt db tok code now).2 = db := by
  have hfind : db.tokens.find? (fun x => x.token == tok && !x.is_used) = none :=
    find?_token_none db.tokens tok fun x hx hxt => by
      rw [huniq x hx hxt]; exact hused
  by_cases hguard : (tok == "" || code == "") = true
  · simp [decideStepTwo, hguard, Step2Result.isSuccess]
  · simp [decideStepTwo, hguard, hfind, Step2Result.isSuccess]

/-- C5 witness: the used token `tokB` is denied with the database unchanged,
even though the supplied code and the expiry window would otherwise pass. -/
theorem c5_witness :
    (decideStepTwo vtFalse dbTwoTokens "tokB" "123456" 20).1.isSuccess =
      false ∧
    (decideStepTwo vtFalse dbTwoTokens "tokB" "123456" 20).2 = dbTwoTokens :=
  c5_used_token_always_denied vtFalse dbTwoTokens "tokB" "123456" 20 tokUsed
    (by decide) (by decide) (by decide) (by decide)

/-- C6: the validity predicate of both short-lived credential kinds is
exactly "not used and now strictly before expiry"; consequently SMS
verification denies (leaving the database unchanged) when every stored code
is expired, and step two denies (never a success, database unchanged) when
the presented token is expired. -/
theorem c6_validity_and_expiry_denial :
    (∀ (c : TwoFactorCode) (now : Nat),
        c.is_valid now = true ↔ (c.is_used = false ∧ now < c.expires_at)) ∧
    (∀ (t : TemporaryToken) (now : Nat),
        t.is_valid now = true ↔ (t.is_used = false ∧ now < t.expires_at)) ∧
    (∀ (db : DB) (u : CustomUser) (v : String) (now : Nat),
        (∀ c ∈ db.codes, c.expires_at ≤ now) →
        smsVerifySingleShot db u v now = (false, db) ∧
        smsVerifyStepTwo db u v now = (false, db)) ∧
    (∀ (vt : VerifyTotp) (db : DB) (tok code : String) (now : Nat)
        (t : TemporaryToken),
        t ∈ db.tokens → t.token = tok →
        (∀ x ∈ db.tokens, x.token = tok → x = t) →
        t.expires_at ≤ now →
        (decideStepTwo vt db tok code now).1.isSuccess = false ∧
        (decideStepTwo vt db tok code now).2 = db) := by
  refine ⟨fun c now => ?_, fun t now => ?_, fun db u v now hexp => ?_,
    fun vt db tok code now t hmem htok huniq hexp => ?_⟩
  · unfold TwoFactorCode.is_valid
    simp only [Bool.and_eq_true, Bool.not_eq_true', decide_eq_true_eq]
  · unfold TemporaryToken.is_valid
    simp only [Bool.and_eq_true, Bool.not_eq_true', decide_eq_true_eq]
  · constructor
    · unfold smsVerifySingleShot
      cases hl : latestCode (db.codes.filter fun c =>
          c.user == u.id && !c.is_used) with
      | none => rfl
      | some lc =>
        have hcm : lc ∈ db.codes := List.mem_of_mem_filter (latestCode_mem hl)
        have hv : lc.is_valid now = false := by
          unfold TwoFactorCode.is_valid
          have hle := hexp lc hcm
          have hd : decide (lc.expires_at > now) = false :=
            decide_eq_false (by omega)
          rw [hd, Bool.and_false]
        simp [hv]
    · unfold smsVerifyStepTwo
      cases hl : latestCode (db.codes.filter fun c =>
          c.user == u.id && c.code == v && !c.is_used) with
      | none => rfl
      | some lc =>
        have hcm : lc ∈ db.codes := List.mem_of_mem_filter (latestCode_mem hl)
        have hv : lc.is_valid now = false := by
          unfold TwoFactorCode.is_valid
          have hle := hexp lc hcm
          have hd : decide (lc.expires_at > now) = false :=
            decide_eq_false (by omega)
          rw [hd, Bool.and_false]
        simp [hv]
  · subst htok
    by_cases hguard : (t.token == "" || code == "") = true
    · simp [decideStepTwo, hguard, Step2Result.isSuccess]
    · by_cases hused : t.is_used = true
      · have hfind : db.tokens.find?
            (fun x => x.token == t.token && !x.is_used) = none :=
          find?_token_none db.tokens t.token fun x hx hxt => by
            rw [huniq x hx hxt]; exact hused
        simp [decideStepTwo, hguard, hfind, Step2Result.isSuccess]
      · have hused' : t.is_used = false := by
          cases hb : t.is_used
          · rfl
          · exact absurd hb hused
        have hfind := find?_token_some hmem hused' huniq
        have hv : t.is_valid now = false := by
          unfold TemporaryToken.is_valid
          have hd : decide (t.expires_at > now) = false :=
            decide_eq_false (by omega)
          rw [hd, Bool.and_false]
        simp [decideStepTwo, hguard, hfind, hv, Step2Result.isSuccess]

/-- C6 witness: the validity predicates and expiry-denial consequences
evaluated at the sample objects. -/
theorem c6_witness :
    (codeOld.is_valid 10 = true ↔ (codeOld.is_used = false ∧
        10 < codeOld.expires_at)) ∧
    (tokLive.is_valid 10 = true ↔ (tokLive.is_used = false ∧
        10 < tokLive.expires_at)) ∧
    smsVerifySingleShot dbTwoCodes sampleSmsUser "222222" 200 =
      (false, dbTwoCodes) ∧
    (decideStepTwo vtFalse dbTwoTokens "tokA" "123456" 20).1.isSuccess =
      false :=
  ⟨c6_validity_and_expiry_denial.1 codeOld 10,
   c6_validity_and_expiry_denial.2.1 tokLive 10,
   (c6_validity_and_expiry_denial.2.2.1 dbTwoCodes sampleSmsUser "222222" 200
      (by decide)).1,
   (c6_validity_and_expiry_denial.2.2.2 vtFalse dbTwoTokens "tokA" "123456" 20
      tokExpired (by decide) (by decide) (by decide) (by decide)).1⟩

/-- C7: a `decideStepTwo` call presenting a valid (unused, unexpired)
temporary token together with a code that fails the second-factor check
denies with the database unchanged, so the token's used flag stays false and
a retry within the expiry window can still succeed. -/
theorem c7_deny_without_consuming_token (vt : VerifyTotp) (db : DB)
    (tok code : String) (now : Nat) (t : TemporaryToken)
    (htokne : tok ≠ "") (hcodene : code ≠ "")
    (hmem : t ∈ db.tokens) (htok : t.token = tok)
    (huniq : ∀ x ∈ db.tokens, x.token = tok → x = t)
    (hvalid : t.is_valid now = true)
    (hfail : (verifySecondFactorStepTwo vt db t.user code now).1 = false) :
    decideStepTwo vt db tok code now =
      (.unauthorized "Invalid verification code", db) ∧
    t.is_used = false := by
  subst htok
  have hused : t.is_used = false := by
    have h' := hvalid
    unfold TemporaryToken.is_valid at h'
    simp only [Bool.and_eq_true, Bool.not_eq_true'] at h'
    exact h'.1
  have hfind := find?_token_some hmem hused huniq
  have hg1 : (t.token == "") = false := beq_eq_false_iff_ne.mpr htokne
  have hg2 : (code == "") = false := beq_eq_false_iff_ne.mpr hcodene
  have hdb := verifySecondFactorStepTwo_false_db vt db t.user code now hfail
  refine ⟨?_, hused⟩
  simp [decideStepTwo, hg1, hg2, hfind, hvalid, hfail, hdb]

/-- C7 witness: the live token `tokC` with a code matching no stored code is
denied without being consumed. -/
theorem c7_witness :
    decideStepTwo vtFalse dbLive "tokC" "999999" 10 =
      (.unauthorized "Invalid verification code", dbLive) ∧
    tokLive.is_used = false :=
  c7_deny_without_consuming_token vtFalse dbLive "tokC" "999999" 10 tokLive
    (by decide) (by decide) (by decide) (by decide) (by decide) (by decide)
    (by decide)

/-- C1 counterexample: with two unused, unexpired codes stored for the same
account (values "111111" created first, "222222" created later), supplying
"111111" is rejected by the single-shot SMS verification (which only checks
the most recently created unused code) but accepted by the step-two SMS
verification (which filters by value first) — the two predicates disagree. -/
theorem c1_counterexample :
    (smsVerifySingleShot dbTwoCodes sampleSmsUser "111111" 10).1 = false ∧
    (smsVerifyStepTwo dbTwoCodes sampleSmsUser "111111" 10).1 = true := by
  constructor
  · decide
  · decide

/-- C1 amended: the single-shot SMS verification refines the step-two one in
one direction only — whenever the single-shot path accepts, the step-two
path accepts the same input and marks the same stored code as used (producing
the identical database); the converse fails (see the counterexample). -/
theorem c1_amended_single_shot_refines_step_two (db : DB) (u : CustomUser)
    (v : String) (now : Nat) (db' : DB)
    (h : smsVerifySingleShot db u v now = (true, db')) :
    smsVerifyStepTwo db u v now = (true, db') := by
  unfold smsVerifySingleShot at h
  cases hl : latestCode (db.codes.filter fun c =>
      c.user == u.id && !c.is_used) with
  | none => rw [hl] at h; simp at h
  | some lc =>
    rw [hl] at h
    have h' : (if (lc.is_valid now && lc.code == v) = true
        then ((true : Bool), markCodeUsed db lc.id)
        else ((false : Bool), db)) = (true, db') := h
    by_cases hc : (lc.is_valid now && lc.code == v) = true
    · rw [if_pos hc] at h'
      injection h' with h1 h2
      subst h2
      have hvalid : lc.is_valid now = true := by
        have h' := hc
        simp only [Bool.and_eq_true] at h'
        exact h'.1
      have hcode : (lc.code == v) = true := by
        have h' := hc
        simp only [Bool.and_eq_true] at h'
        exact h'.2
      have hfeq : ((db.codes.filter fun c =>
            c.user == u.id && !c.is_used).filter fun c => c.code == v)
          = db.codes.filter fun c =>
              c.user == u.id && c.code == v && !c.is_used := by
        rw [List.filter_filter]
        apply List.filter_congr
        intro c _
        cases c.user == u.id <;> cases c.code == v <;> cases !c.is_used <;> rfl
      have hl2 : latestCode (db.codes.filter fun c =>
          c.user == u.id && c.code == v && !c.is_used) = some lc := by
        rw [← hfeq]
        exact latestCode_filter _ hl hcode
      unfold smsVerifyStepTwo
      rw [hl2]
      simp [hvalid]
    · rw [if_neg hc] at h'
      simp at h'

/-- C1 amended witness: supplying the most recently created code "222222"
is accepted by the single-shot path, so the step-two path accepts it too and
marks the same stored code (primary key 2) used. -/
theorem c1_amended_witness :
    smsVerifyStepTwo dbTwoCodes sampleSmsUser "222222" 10 =
      (true, markCodeUsed dbTwoCodes 2) :=
  c1_amended_single_shot_refines_step_two dbTwoCodes sampleSmsUser "222222" 10
    (markCodeUsed dbTwoCodes 2) (by decide)

/-- Helper for C8: with both request fields nonempty, `LoginStep2View.post`
never returns a 400 bad-request outcome. -/
theorem decideStepTwo_not_badRequest (vt : VerifyTotp) (db : DB)
    (tok code : String) (now : Nat) (msg : String)
    (hg1 : (tok == "") = false) (hg2 : (code == "") = false) :
    (decideStepTwo vt db tok code now).1 ≠ .badRequest msg := by
  unfold decideStepTwo
  simp only [hg1, hg2, Bool.or_self, Bool.false_eq_true, if_false]
  cases hfind : db.tokens.find? (fun x => x.token == tok && !x.is_used) with
  | none => simp
  | some t =>
    by_cases hv : (!t.is_valid now) = true
    · simp [hv]
    · by_cases hp : (verifySecondFactorStepTwo vt db t.user code now).1 =
          true <;> simp [hv, hp]

/-- C8 counterexample: two failing step-two requests against the same
database state (one presenting the expired-but-unused token `tokA`, one the
already-used token `tokB`) both fail, yet their observable responses differ
in the error message — the caller can distinguish the sub-cases, refuting
the claim that any two failing requests yield identical responses. -/
theorem c8_counterexample :
    (decideStepTwo vtFalse dbTwoTokens "tokA" "123456" 20).1 =
      .unauthorized "Temporary token has expired. Please login again." ∧
    (decideStepTwo vtFalse dbTwoTokens "tokB" "123456" 20).1 =
      .unauthorized "Invalid or expired temporary token" ∧
    (decideStepTwo vtFalse dbTwoTokens "tokA" "123456" 20).1 ≠
      (decideStepTwo vtFalse dbTwoTokens "tokB" "123456" 20).1 := by
  refine ⟨by decide, by decide, by decide⟩

/-- C8 amended: every failing step-two request (with both fields present)
returns the same HTTP status 401, but the error message in the body
distinguishes token-expired, token-unknown-or-used and code-failure
sub-cases. -/
theorem c8_amended_failures_same_status (vt : VerifyTotp) (db : DB)
    (tok code : String) (now : Nat)
    (htok : tok ≠ "") (hcode : code ≠ "")
    (hfail : (decideStepTwo vt db tok code now).1.isSuccess = false) :
    (decideStepTwo vt db tok code now).1.status = 401 := by
  have hg1 : (tok == "") = false := beq_eq_false_iff_ne.mpr htok
  have hg2 : (code == "") = false := beq_eq_false_iff_ne.mpr hcode
  cases hres : (decideStepTwo vt db tok code now).1 with
  | badRequest msg =>
    exact absurd hres
      (decideStepTwo_not_badRequest vt db tok code now msg hg1 hg2)
  | unauthorized msg => rfl
  | success uid =>
    rw [hres] at hfail
    simp [Step2Result.isSuccess] at hfail

/-- C8 amended witness: the failing request presenting the expired token
`tokA` returns status 401. -/
theorem c8_amended_witness :
    (decideStepTwo vtFalse dbTwoTokens "tokA" "123456" 20).1.status = 401 :=
  c8_amended_failures_same_status vtFalse dbTwoTokens "tokA" "123456" 20
    (by decide) (by decide) (by decide)

/-- C4: the service loop applies `splitlines` to each received chunk
independently and keeps no buffer between reads, so a protocol line split
across two reads is NOT processed as if it had arrived whole: the truncated
fragment ">CLIENT:CONNECT,5,9" (first chunk of the line
">CLIENT:CONNECT,5,91\n") already matches the CONNECT pattern and records
key id 9, whereas single-read processing records key id 91. -/
theorem c4_split_line_divergence :
    processChunks paNull initRunState
        [">CLIENT:CONNECT,5,9".toList, "1\n".toList] ≠
      processChunks paNull initRunState
        [(">CLIENT:CONNECT,5,9" ++ "1\n").toList] ∧
    (processChunks paNull initRunState
        [">CLIENT:CONNECT,5,9".toList, "1\n".toList]).1.current_kid =
      some ['9'] ∧
    (processChunks paNull initRunState
        [(">CLIENT:CONNECT,5,9" ++ "1\n").toList]).1.current_kid =
      some ['9', '1'] := by
  refine ⟨by decide, by decide, by decide⟩

/-- C9: any line matched by the CONNECT pattern, arriving in any loop state
(in particular with a request in flight), resets the collected fields,
stores the new (connectionId, keyId), enters the collecting state, and emits
no reply at all — the abandoned request never receives an allow or deny. -/
theorem c9_connect_resets_without_reply (pa : AuthEngine) (st : RunState)
    (line : List Char) (cid kid : List Char)
    (h : matchConnect line = some (cid, kid)) :
    processLine pa st line =
      ({ current_cid := some cid, current_kid := some kid, username := none,
         password := none, collecting_env := true }, []) := by
  unfold processLine
  rw [h]

/-- C9 witness: a CONNECT for ids (7,1) arriving while collecting an
in-flight request for ids (5,9) discards it without any reply. -/
theorem c9_witness :
    processLine paNull
      { current_cid := some ['5'], current_kid := some ['9'],
        username := some ['a'], password := none, collecting_env := true }
      ">CLIENT:CONNECT,7,1".toList =
      ({ current_cid := some ['7'], current_kid := some ['1'],
         username := none, password := none, collecting_env := true }, []) :=
  c9_connect_resets_without_reply paNull _ _ ['7'] ['1'] (by decide)

/-- C10: for an account with method SMS and no stored phone number, a step-1
login with correct primary credentials raises `ValueError` from the SMS
dispatch only after the `TemporaryToken` has already been persisted: the
outcome is the propagated error and the database has gained the new token
row even though no token was returned to the caller. -/
theorem c10_step1_persists_token_then_raises (auth : Authenticate) (db : DB)
    (username password newToken newCode : String) (now : Nat)
    (user : CustomUser)
    (hu : username ≠ "") (hp : password ≠ "")
    (hauth : auth username password = some user)
    (hsms : user.two_fa_method = "SMS")
    (hphone : user.phone_number = none) :
    loginStep1 auth db username password newToken newCode now =
      (.valueError "User has no phone number",
       { db with tokens := db.tokens ++
          [{ id := db.codes.length + db.tokens.length, user := user,
             token := newToken, created_at := now, expires_at := now + 15,
             is_used := false }] }) := by
  have hg1 : (username == "") = false := beq_eq_false_iff_ne.mpr hu
  have hg2 : (password == "") = false := beq_eq_false_iff_ne.mpr hp
  have hm1 : (("SMS" : String) == "NONE") = false := by decide
  have hm2 : (("SMS" : String) == "SMS") = true := by decide
  simp [loginStep1, hg1, hg2, hauth, hsms, hm1, hm2, generate_token,
    send_sms_code, phoneTruthy, hphone]

/-- Sample account with method SMS and no stored phone number. -/
def userNoPhone : CustomUser :=
  { id := 3, username := "bob", two_fa_method := "SMS",
    two_fa_secret := none, phone_number := none }

/-- Concrete identity store knowing only `bob` with password `pw`. -/
def authNoPhone : Authenticate := fun u p =>
  if u == "bob" && p == "pw" then some userNoPhone else none

/-- C10 witness: step 1 for `bob` raises the ValueError yet persists the
temporary token row. -/
theorem c10_witness :
    loginStep1 authNoPhone { codes := [], tokens := [] } "bob" "pw" "uuid-1"
        "654321" 7 =
      (.valueError "User has no phone number",
       { codes := [],
         tokens := [{ id := 0, user := userNoPhone, token := "uuid-1",
                      created_at := 7, expires_at := 22, is_used := false }] }) :=
  c10_step1_persists_token_then_raises authNoPhone
    { codes := [], tokens := [] } "bob" "pw" "uuid-1" "654321" 7 userNoPhone
    (by decide) (by decide) (by decide) (by decide) (by decide)

end VpnAuth
